import Mathlib

/-!
Shallow embedding of `starlette_prometheus/middleware.py`
(`PrometheusMiddleware`), verifying the specification's claims about
metric bookkeeping, path-template resolution and filtering.

Modelling choices:
* A request carries its ASGI scope (method + path) and the application's
  registered routes; `request.method` and `request.url.path` are the
  scope's fields, as in Starlette.
* A route's `matches` is an injected capability returning a match kind
  and a child scope (the latter is ignored by the middleware, as in the
  source).
* The downstream handler (`call_next`) is a value: either a response or
  a raised exception, together with the two monotonic clock readings
  that bracket it in the source (`time.perf_counter()`).
* `dispatch` is modelled as a function returning the ordered trace of
  registry operations it performs (metric increments / decrements /
  observations, plus a marker for the downstream invocation) and the
  outcome it returns or re-raises.
* A registry state maps (metric name, label list) to a counter value, a
  gauge value, or a list of histogram observations; applying a trace to
  it replays the middleware's side effects.
-/

namespace StarlettePrometheus

/-- Starlette's `routing.Match` enum. -/
inductive Match where
  | NONE
  | PARTIAL
  | FULL
deriving DecidableEq, Repr

/-- The part of an ASGI scope the middleware reads: HTTP method and raw path. -/
structure Scope where
  method : String
  path : String
deriving DecidableEq, Repr

/-- A registered route: its pattern string (`route.path`) and its matching
capability `route.matches(scope) -> (match, child_scope)`.
(`matches` is a Lean keyword, hence the trailing underscore.) -/
structure Route where
  path : String
  matches_ : Scope → Match × Option Scope

/-- The request as seen by the middleware: its scope and the application's
registered routes (`request.app.routes`). -/
structure Request where
  scope : Scope
  app_routes : List Route

/-- `request.method`, read from the scope as in Starlette. -/
def Request.method (r : Request) : String := r.scope.method

/-- `request.url.path`, the raw request path from the scope. -/
def Request.url_path (r : Request) : String := r.scope.path

/-- An exception value raised by the downstream handler; `type_name` models
`type(e).__name__`. -/
structure Exn where
  type_name : String
  message : String
deriving DecidableEq, Repr

/-- The downstream handler's response. -/
structure Response where
  status_code : Nat
  headers : List (String × String)
  body : String
deriving DecidableEq, Repr

/-- A prometheus_client metric as registered: name, documentation, label names. -/
structure MetricDecl where
  name : String
  documentation : String
  labelnames : List String
deriving DecidableEq, Repr

/-- The middleware object after `__init__`. -/
structure PrometheusMiddleware where
  filter_unhandled_paths : Bool
  requests : MetricDecl
  responses : MetricDecl
  requests_processing_time : MetricDecl
  exceptions : MetricDecl
  requests_in_progress : MetricDecl

/-- `PrometheusMiddleware.__init__(app, filter_unhandled_paths, prefix)`:
registers the five metrics, each name prepended with the prefix `pfx`. -/
def PrometheusMiddleware.init (filter_unhandled_paths : Bool) (pfx : String) :
    PrometheusMiddleware :=
  { filter_unhandled_paths := filter_unhandled_paths
    requests :=
      ⟨pfx ++ "starlette_requests_total",
       "Total count of requests by method and path.",
       ["method", "path_template"]⟩
    responses :=
      ⟨pfx ++ "starlette_responses_total",
       "Total count of responses by method, path and status codes.",
       ["method", "path_template", "status_code"]⟩
    requests_processing_time :=
      ⟨pfx ++ "starlette_requests_processing_time_seconds",
       "Histogram of requests processing time by path (in seconds)",
       ["method", "path_template"]⟩
    exceptions :=
      ⟨pfx ++ "starlette_exceptions_total",
       "Total count of exceptions raised by path and exception type",
       ["method", "path_template", "exception_type"]⟩
    requests_in_progress :=
      ⟨pfx ++ "starlette_requests_in_progress",
       "Gauge of requests by method and path currently being processed",
       ["method", "path_template"]⟩ }

/-- One registry operation performed by `dispatch`, or the downstream
invocation marker (`await call_next(request)`). -/
inductive Event where
  | counter_inc (name : String) (labels : List (String × String))
  | gauge_inc (name : String) (labels : List (String × String))
  | gauge_dec (name : String) (labels : List (String × String))
  | histogram_observe (name : String) (labels : List (String × String)) (value : Int)
  | call_next
deriving DecidableEq, Repr

/-- Whether an event mutates a registry metric (everything but the
downstream-invocation marker). -/
def Event.is_metric_op : Event → Bool
  | Event.call_next => false
  | _ => true

/-- The label list attached to a metric event (empty for the marker). -/
def Event.labels : Event → List (String × String)
  | Event.counter_inc _ l => l
  | Event.gauge_inc _ l => l
  | Event.gauge_dec _ l => l
  | Event.histogram_observe _ l _ => l
  | Event.call_next => []

/-- The loop body of `get_path_template`: scan routes in registration order,
return the first FULL match's pattern with `true`, else the raw path with
`false`. -/
def find_template : List Route → Scope → String → String × Bool
  | [], _, raw => (raw, false)
  | route :: rest, scope, raw =>
    if (route.matches_ scope).1 = Match.FULL then (route.path, true)
    else find_template rest scope raw

/-- `PrometheusMiddleware.get_path_template(request)` (a staticmethod). -/
def PrometheusMiddleware.get_path_template (request : Request) : String × Bool :=
  find_template request.app_routes request.scope request.url_path

/-- `PrometheusMiddleware._is_path_filtered(self, is_handled_path)`. -/
def PrometheusMiddleware._is_path_filtered (self : PrometheusMiddleware)
    (is_handled_path : Bool) : Bool :=
  self.filter_unhandled_paths && !is_handled_path

/-- The `(method, path_template)` label list used by every metric of the
middleware. -/
def base_labels (method path_template : String) : List (String × String) :=
  [("method", method), ("path_template", path_template)]

/-- `PrometheusMiddleware.dispatch(self, request, call_next)`.

The downstream handler is the value `call_next` (a response or a raised
exception); `before_time` and `after_time` are the monotonic clock readings
taken around the `await`. Returns the ordered trace of registry operations
and the outcome `dispatch` itself produces (returned response or re-raised
exception). -/
def PrometheusMiddleware.dispatch (self : PrometheusMiddleware) (request : Request)
    (call_next : Except Exn Response) (before_time after_time : Int) :
    List Event × Except Exn Response :=
  let method := request.method
  let tpl := PrometheusMiddleware.get_path_template request
  let path_template := tpl.1
  let is_handled_path := tpl.2
  if self._is_path_filtered is_handled_path then
    ([Event.call_next], call_next)
  else
    let labels := base_labels method path_template
    match call_next with
    | Except.error e =>
      ([Event.gauge_inc self.requests_in_progress.name labels,
        Event.counter_inc self.requests.name labels,
        Event.call_next,
        Event.counter_inc self.exceptions.name
          (labels ++ [("exception_type", e.type_name)]),
        Event.gauge_dec self.requests_in_progress.name labels],
       Except.error e)
    | Except.ok response =>
      ([Event.gauge_inc self.requests_in_progress.name labels,
        Event.counter_inc self.requests.name labels,
        Event.call_next,
        Event.histogram_observe self.requests_processing_time.name labels
          (after_time - before_time),
        Event.counter_inc self.responses.name
          (labels ++ [("status_code", toString response.status_code)]),
        Event.gauge_dec self.requests_in_progress.name labels],
       Except.ok response)

/-- The metrics registry's visible state: counter values, gauge values and
histogram observation lists, each keyed by (metric name, label list). -/
structure Registry where
  counters : String → List (String × String) → Int
  gauges : String → List (String × String) → Int
  observations : String → List (String × String) → List Int

/-- Replay one registry operation. -/
def apply_event (reg : Registry) : Event → Registry
  | Event.counter_inc n l =>
    { reg with counters := fun n2 l2 =>
        if n2 = n ∧ l2 = l then reg.counters n2 l2 + 1 else reg.counters n2 l2 }
  | Event.gauge_inc n l =>
    { reg with gauges := fun n2 l2 =>
        if n2 = n ∧ l2 = l then reg.gauges n2 l2 + 1 else reg.gauges n2 l2 }
  | Event.gauge_dec n l =>
    { reg with gauges := fun n2 l2 =>
        if n2 = n ∧ l2 = l then reg.gauges n2 l2 - 1 else reg.gauges n2 l2 }
  | Event.histogram_observe n l v =>
    { reg with observations := fun n2 l2 =>
        if n2 = n ∧ l2 = l then reg.observations n2 l2 ++ [v]
        else reg.observations n2 l2 }
  | Event.call_next => reg

/-- Replay a trace of registry operations, oldest first. -/
def apply_trace (reg : Registry) : List Event → Registry
  | [] => reg
  | e :: rest => apply_trace (apply_event reg e) rest

/-- Number of occurrences of a given event in a trace. -/
def count_occ (e : Event) : List Event → Nat
  | [] => 0
  | x :: rest => (if x = e then 1 else 0) + count_occ e rest

/-- Number of trace events satisfying a predicate. -/
def count_events (trace : List Event) (p : Event → Bool) : Nat :=
  (trace.filter p).length

/-- Whether an event carries a label with the given key. -/
def Event.has_label_key (k : String) (ev : Event) : Bool :=
  ev.labels.any (fun pr => pr.1 == k)

/-- Event-kind tests, used to state ordering and absence properties. -/
def Event.is_gauge_inc : Event → Bool
  | Event.gauge_inc _ _ => true
  | _ => false

def Event.is_gauge_dec : Event → Bool
  | Event.gauge_dec _ _ => true
  | _ => false

def Event.is_call_next : Event → Bool
  | Event.call_next => true
  | _ => false

def Event.is_histogram_observe : Event → Bool
  | Event.histogram_observe _ _ _ => true
  | _ => false

/-! ### Helper lemmas -/

/-- A list is never equal to itself extended by one element. -/
theorem self_ne_append_singleton (l : List (String × String)) (x : String × String) :
    (l = l ++ [x]) = False := by
  simp

/-- Filtered branch of `dispatch`: the request is forwarded untouched. -/
theorem dispatch_filtered (mw : PrometheusMiddleware) (req : Request)
    (d : Except Exn Response) (b a : Int)
    (h : mw._is_path_filtered (PrometheusMiddleware.get_path_template req).2 = true) :
    mw.dispatch req d b a = ([Event.call_next], d) := by
  simp [PrometheusMiddleware.dispatch, h]

/-- Non-filtered branch of `dispatch`, downstream returned normally. -/
theorem dispatch_ok (mw : PrometheusMiddleware) (req : Request)
    (r : Response) (b a : Int)
    (h : mw._is_path_filtered (PrometheusMiddleware.get_path_template req).2 = false) :
    mw.dispatch req (Except.ok r) b a =
      ([Event.gauge_inc mw.requests_in_progress.name
          (base_labels req.method (PrometheusMiddleware.get_path_template req).1),
        Event.counter_inc mw.requests.name
          (base_labels req.method (PrometheusMiddleware.get_path_template req).1),
        Event.call_next,
        Event.histogram_observe mw.requests_processing_time.name
          (base_labels req.method (PrometheusMiddleware.get_path_template req).1)
          (a - b),
        Event.counter_inc mw.responses.name
          (base_labels req.method (PrometheusMiddleware.get_path_template req).1
            ++ [("status_code", toString r.status_code)]),
        Event.gauge_dec mw.requests_in_progress.name
          (base_labels req.method (PrometheusMiddleware.get_path_template req).1)],
       Except.ok r) := by
  simp [PrometheusMiddleware.dispatch, h]

/-- Non-filtered branch of `dispatch`, downstream raised. -/
theorem dispatch_error (mw : PrometheusMiddleware) (req : Request)
    (e : Exn) (b a : Int)
    (h : mw._is_path_filtered (PrometheusMiddleware.get_path_template req).2 = false) :
    mw.dispatch req (Except.error e) b a =
      ([Event.gauge_inc mw.requests_in_progress.name
          (base_labels req.method (PrometheusMiddleware.get_path_template req).1),
        Event.counter_inc mw.requests.name
          (base_labels req.method (PrometheusMiddleware.get_path_template req).1),
        Event.call_next,
        Event.counter_inc mw.exceptions.name
          (base_labels req.method (PrometheusMiddleware.get_path_template req).1
            ++ [("exception_type", e.type_name)]),
        Event.gauge_dec mw.requests_in_progress.name
          (base_labels req.method (PrometheusMiddleware.get_path_template req).1)],
       Except.error e) := by
  simp [PrometheusMiddleware.dispatch, h]

/-- `find_template` returns precisely the first fully matching route's
pattern, else the fallback. -/
theorem find_template_eq_find (routes : List Route) (scope : Scope) (raw : String) :
    find_template routes scope raw =
      match routes.find? (fun route => decide ((route.matches_ scope).1 = Match.FULL)) with
      | some route => (route.path, true)
      | none => (raw, false) := by
  induction routes with
  | nil => simp [find_template]
  | cons route rest ih =>
    by_cases hm : (route.matches_ scope).1 = Match.FULL
    · simp [find_template, hm, List.find?]
    · simp [find_template, hm, List.find?, ih]

/-! ### Concrete fixtures for witnesses -/

/-- A route registered at pattern `/ok/` that FULL-matches exactly that path. -/
def sampleRoute : Route :=
  ⟨"/ok/", fun s => (if s.path = "/ok/" then Match.FULL else Match.NONE, none)⟩

/-- A GET request to `/ok/`, which `sampleRoute` matches. -/
def reqMatched : Request := ⟨⟨"GET", "/ok/"⟩, [sampleRoute]⟩

/-- A GET request to `/other/`, which no registered route matches. -/
def reqUnmatched : Request := ⟨⟨"GET", "/other/"⟩, [sampleRoute]⟩

/-- Middleware with default configuration. -/
def mwDefault : PrometheusMiddleware := PrometheusMiddleware.init false ""

/-- Middleware with `filter_unhandled_paths=True`. -/
def mwFiltering : PrometheusMiddleware := PrometheusMiddleware.init true ""

/-- A plain 200 response from the downstream handler. -/
def okResponse : Response := ⟨200, [("content-type", "text/plain")], "hello"⟩

/-- An exception raised by the downstream handler. -/
def sampleExn : Exn := ⟨"ValueError", "boom"⟩

/-- A registry with all metrics at their initial values. -/
def emptyRegistry : Registry := ⟨fun _ _ => 0, fun _ _ => 0, fun _ _ => []⟩

/-! ### Claims -/

/-- C2: the path-template resolver scans the registered routes in
registration order and returns the pattern string of the first route that
fully matches, paired with `true`; when no route fully matches it returns
the raw request path paired with `false`. -/
theorem C2_get_path_template_first_full_match (req : Request) :
    PrometheusMiddleware.get_path_template req =
      match req.app_routes.find?
          (fun route => decide ((route.matches_ req.scope).1 = Match.FULL)) with
      | some route => (route.path, true)
      | none => (req.url_path, false) :=
  find_template_eq_find req.app_routes req.scope req.url_path

/-- C1: for every request that enters the interceptor and is not filtered
out, the in-flight gauge for its `(method, path_template)` label set is
incremented exactly once, the increment precedes the downstream invocation,
and the gauge is decremented exactly once on every exit path — whether the
downstream handler returns normally or raises. -/
theorem C1_in_flight_gauge_once_per_request (mw : PrometheusMiddleware)
    (req : Request) (d : Except Exn Response) (b a : Int)
    (h : mw._is_path_filtered (PrometheusMiddleware.get_path_template req).2 = false) :
    count_occ (Event.gauge_inc mw.requests_in_progress.name
        (base_labels req.method (PrometheusMiddleware.get_path_template req).1))
      (mw.dispatch req d b a).1 = 1 ∧
    count_occ (Event.gauge_dec mw.requests_in_progress.name
        (base_labels req.method (PrometheusMiddleware.get_path_template req).1))
      (mw.dispatch req d b a).1 = 1 ∧
    List.findIdx Event.is_gauge_inc (mw.dispatch req d b a).1 <
      List.findIdx Event.is_call_next (mw.dispatch req d b a).1 := by
  rcases d with e | r
  · rw [dispatch_error mw req e b a h]
    refine ⟨?_, ?_, ?_⟩ <;>
      simp [count_occ, self_ne_append_singleton, List.findIdx_cons,
        Event.is_gauge_inc, Event.is_call_next]
  · rw [dispatch_ok mw req r b a h]
    refine ⟨?_, ?_, ?_⟩ <;>
      simp [count_occ, self_ne_append_singleton, List.findIdx_cons,
        Event.is_gauge_inc, Event.is_call_next]

/-- Witness for C1: the default middleware on a matched request with a
normally returning downstream handler. -/
theorem C1_witness :
    mwDefault._is_path_filtered
      (PrometheusMiddleware.get_path_template reqMatched).2 = false ∧
    (count_occ (Event.gauge_inc mwDefault.requests_in_progress.name
        (base_labels reqMatched.method
          (PrometheusMiddleware.get_path_template reqMatched).1))
      (mwDefault.dispatch reqMatched (Except.ok okResponse) 3 7).1 = 1 ∧
    count_occ (Event.gauge_dec mwDefault.requests_in_progress.name
        (base_labels reqMatched.method
          (PrometheusMiddleware.get_path_template reqMatched).1))
      (mwDefault.dispatch reqMatched (Except.ok okResponse) 3 7).1 = 1 ∧
    List.findIdx Event.is_gauge_inc
        (mwDefault.dispatch reqMatched (Except.ok okResponse) 3 7).1 <
      List.findIdx Event.is_call_next
        (mwDefault.dispatch reqMatched (Except.ok okResponse) 3 7).1) :=
  ⟨by decide,
   C1_in_flight_gauge_once_per_request mwDefault reqMatched
     (Except.ok okResponse) 3 7 (by decide)⟩

/-- C3: with `filter_unhandled_paths=true`, a request whose template
resolution reported `matched=false` is forwarded directly downstream with no
metric change of any kind, while a matched request is dispatched exactly as
it would be with `filter_unhandled_paths=false`. -/
theorem C3_filter_unhandled_paths_bypass (mw : PrometheusMiddleware)
    (req : Request) (d : Except Exn Response) (b a : Int) (reg : Registry)
    (hf : mw.filter_unhandled_paths = true) :
    if (PrometheusMiddleware.get_path_template req).2 then
      mw.dispatch req d b a =
        { mw with filter_unhandled_paths := false }.dispatch req d b a
    else
      mw.dispatch req d b a = ([Event.call_next], d) ∧
      apply_trace reg (mw.dispatch req d b a).1 = reg := by
  by_cases hm : (PrometheusMiddleware.get_path_template req).2 = true
  · rw [if_pos hm]
    have h1 : mw._is_path_filtered (PrometheusMiddleware.get_path_template req).2
        = false := by
      simp [PrometheusMiddleware._is_path_filtered, hm]
    have h2 : ({ mw with filter_unhandled_paths := false } :
        PrometheusMiddleware)._is_path_filtered
        (PrometheusMiddleware.get_path_template req).2 = false := by
      simp [PrometheusMiddleware._is_path_filtered]
    rcases d with e | r
    · rw [dispatch_error mw req e b a h1,
        dispatch_error { mw with filter_unhandled_paths := false } req e b a h2]
    · rw [dispatch_ok mw req r b a h1,
        dispatch_ok { mw with filter_unhandled_paths := false } req r b a h2]
  · rw [if_neg hm]
    have h1 : mw._is_path_filtered (PrometheusMiddleware.get_path_template req).2
        = true := by
      simp [PrometheusMiddleware._is_path_filtered, hf,
        Bool.eq_false_iff.mp (Bool.not_eq_true _ ▸ hm)]
    rw [dispatch_filtered mw req d b a h1]
    exact ⟨rfl, rfl⟩

/-- Witness for C3: the filtering middleware on an unmatched request. -/
theorem C3_witness :
    mwFiltering.filter_unhandled_paths = true ∧
    (if (PrometheusMiddleware.get_path_template reqUnmatched).2 then
      mwFiltering.dispatch reqUnmatched (Except.ok okResponse) 3 7 =
        { mwFiltering with filter_unhandled_paths := false }.dispatch
          reqUnmatched (Except.ok okResponse) 3 7
    else
      mwFiltering.dispatch reqUnmatched (Except.ok okResponse) 3 7 =
        ([Event.call_next], Except.ok okResponse) ∧
      apply_trace emptyRegistry
        (mwFiltering.dispatch reqUnmatched (Except.ok okResponse) 3 7).1 =
        emptyRegistry) :=
  ⟨by decide,
   C3_filter_unhandled_paths_bypass mwFiltering reqUnmatched
     (Except.ok okResponse) 3 7 emptyRegistry (by decide)⟩

/-- C4: on a non-filtered request whose downstream handler raises, the
exceptions counter for `(method, template, exception_type)` is incremented
exactly once, no processing-time observation and no response-status entry is
recorded, and the original exception is re-raised unchanged. -/
theorem C4_exception_recorded_and_reraised (mw : PrometheusMiddleware)
    (req : Request) (e : Exn) (b a : Int)
    (h : mw._is_path_filtered (PrometheusMiddleware.get_path_template req).2 = false) :
    count_occ (Event.counter_inc mw.exceptions.name
        (base_labels req.method (PrometheusMiddleware.get_path_template req).1
          ++ [("exception_type", e.type_name)]))
      (mw.dispatch req (Except.error e) b a).1 = 1 ∧
    count_events (mw.dispatch req (Except.error e) b a).1
      Event.is_histogram_observe = 0 ∧
    count_events (mw.dispatch req (Except.error e) b a).1
      (Event.has_label_key "status_code") = 0 ∧
    (mw.dispatch req (Except.error e) b a).2 = Except.error e := by
  rw [dispatch_error mw req e b a h]
  refine ⟨?_, rfl, rfl, rfl⟩
  simp [count_occ, self_ne_append_singleton]

/-- Witness for C4: the default middleware on a matched request whose
handler raises `ValueError`. -/
theorem C4_witness :
    mwDefault._is_path_filtered
      (PrometheusMiddleware.get_path_template reqMatched).2 = false ∧
    (count_occ (Event.counter_inc mwDefault.exceptions.name
        (base_labels reqMatched.method
          (PrometheusMiddleware.get_path_template reqMatched).1
          ++ [("exception_type", sampleExn.type_name)]))
      (mwDefault.dispatch reqMatched (Except.error sampleExn) 3 7).1 = 1 ∧
    count_events (mwDefault.dispatch reqMatched (Except.error sampleExn) 3 7).1
      Event.is_histogram_observe = 0 ∧
    count_events (mwDefault.dispatch reqMatched (Except.error sampleExn) 3 7).1
      (Event.has_label_key "status_code") = 0 ∧
    (mwDefault.dispatch reqMatched (Except.error sampleExn) 3 7).2 =
      Except.error sampleExn) :=
  ⟨by decide,
   C4_exception_recorded_and_reraised mwDefault reqMatched sampleExn 3 7
     (by decide)⟩

/-- C5: on a non-filtered request whose downstream handler returns normally,
the elapsed monotonic time is observed exactly once into the processing-time
histogram for `(method, template)`, and both the total-requests counter for
`(method, template)` and the responses counter for
`(method, template, status_code)` increase by exactly 1. -/
theorem C5_success_metrics (mw : PrometheusMiddleware) (req : Request)
    (r : Response) (b a : Int) (reg : Registry)
    (h : mw._is_path_filtered (PrometheusMiddleware.get_path_template req).2 = false) :
    count_occ (Event.histogram_observe mw.requests_processing_time.name
        (base_labels req.method (PrometheusMiddleware.get_path_template req).1)
        (a - b))
      (mw.dispatch req (Except.ok r) b a).1 = 1 ∧
    (apply_trace reg (mw.dispatch req (Except.ok r) b a).1).observations
        mw.requests_processing_time.name
        (base_labels req.method (PrometheusMiddleware.get_path_template req).1) =
      reg.observations mw.requests_processing_time.name
        (base_labels req.method (PrometheusMiddleware.get_path_template req).1)
        ++ [a - b] ∧
    (apply_trace reg (mw.dispatch req (Except.ok r) b a).1).counters
        mw.requests.name
        (base_labels req.method (PrometheusMiddleware.get_path_template req).1) =
      reg.counters mw.requests.name
        (base_labels req.method (PrometheusMiddleware.get_path_template req).1)
        + 1 ∧
    (apply_trace reg (mw.dispatch req (Except.ok r) b a).1).counters
        mw.responses.name
        (base_labels req.method (PrometheusMiddleware.get_path_template req).1
          ++ [("status_code", toString r.status_code)]) =
      reg.counters mw.responses.name
        (base_labels req.method (PrometheusMiddleware.get_path_template req).1
          ++ [("status_code", toString r.status_code)])
        + 1 := by
  rw [dispatch_ok mw req r b a h]
  refine ⟨?_, ?_, ?_, ?_⟩
  · simp [count_occ, self_ne_append_singleton]
  · simp [apply_trace, apply_event, self_ne_append_singleton]
  · simp [apply_trace, apply_event, self_ne_append_singleton]
  · simp [apply_trace, apply_event, self_ne_append_singleton]

/-- Witness for C5: the default middleware on a matched request returning a
200 response, with clock readings 3 and 7. -/
theorem C5_witness :
    mwDefault._is_path_filtered
      (PrometheusMiddleware.get_path_template reqMatched).2 = false ∧
    (count_occ (Event.histogram_observe mwDefault.requests_processing_time.name
        (base_labels reqMatched.method
          (PrometheusMiddleware.get_path_template reqMatched).1)
        (7 - 3))
      (mwDefault.dispatch reqMatched (Except.ok okResponse) 3 7).1 = 1 ∧
    (apply_trace emptyRegistry
        (mwDefault.dispatch reqMatched (Except.ok okResponse) 3 7).1).observations
        mwDefault.requests_processing_time.name
        (base_labels reqMatched.method
          (PrometheusMiddleware.get_path_template reqMatched).1) =
      emptyRegistry.observations mwDefault.requests_processing_time.name
        (base_labels reqMatched.method
          (PrometheusMiddleware.get_path_template reqMatched).1)
        ++ [7 - 3] ∧
    (apply_trace emptyRegistry
        (mwDefault.dispatch reqMatched (Except.ok okResponse) 3 7).1).counters
        mwDefault.requests.name
        (base_labels reqMatched.method
          (PrometheusMiddleware.get_path_template reqMatched).1) =
      emptyRegistry.counters mwDefault.requests.name
        (base_labels reqMatched.method
          (PrometheusMiddleware.get_path_template reqMatched).1)
        + 1 ∧
    (apply_trace emptyRegistry
        (mwDefault.dispatch reqMatched (Except.ok okResponse) 3 7).1).counters
        mwDefault.responses.name
        (base_labels reqMatched.method
          (PrometheusMiddleware.get_path_template reqMatched).1
          ++ [("status_code", toString okResponse.status_code)]) =
      emptyRegistry.counters mwDefault.responses.name
        (base_labels reqMatched.method
          (PrometheusMiddleware.get_path_template reqMatched).1
          ++ [("status_code", toString okResponse.status_code)])
        + 1) :=
  ⟨by decide,
   C5_success_metrics mwDefault reqMatched okResponse 3 7 emptyRegistry
     (by decide)⟩

/-- C6: the name prefix given at construction is prepended to the registered
name of each of the five metrics, the label names are independent of it, and
the label values emitted by `dispatch` are independent of it. -/
theorem C6_prefix_only_changes_names (f : Bool) (p : String) :
    (PrometheusMiddleware.init f p).requests.name =
      p ++ "starlette_requests_total" ∧
    (PrometheusMiddleware.init f p).responses.name =
      p ++ "starlette_responses_total" ∧
    (PrometheusMiddleware.init f p).requests_processing_time.name =
      p ++ "starlette_requests_processing_time_seconds" ∧
    (PrometheusMiddleware.init f p).exceptions.name =
      p ++ "starlette_exceptions_total" ∧
    (PrometheusMiddleware.init f p).requests_in_progress.name =
      p ++ "starlette_requests_in_progress" ∧
    (PrometheusMiddleware.init f p).requests.labelnames =
      (PrometheusMiddleware.init f "").requests.labelnames ∧
    (PrometheusMiddleware.init f p).responses.labelnames =
      (PrometheusMiddleware.init f "").responses.labelnames ∧
    (PrometheusMiddleware.init f p).requests_processing_time.labelnames =
      (PrometheusMiddleware.init f "").requests_processing_time.labelnames ∧
    (PrometheusMiddleware.init f p).exceptions.labelnames =
      (PrometheusMiddleware.init f "").exceptions.labelnames ∧
    (PrometheusMiddleware.init f p).requests_in_progress.labelnames =
      (PrometheusMiddleware.init f "").requests_in_progress.labelnames ∧
    ∀ (req : Request) (d : Except Exn Response) (b a : Int),
      ((PrometheusMiddleware.init f p).dispatch req d b a).1.map Event.labels =
        ((PrometheusMiddleware.init f "").dispatch req d b a).1.map Event.labels := by
  refine ⟨rfl, rfl, rfl, rfl, rfl, rfl, rfl, rfl, rfl, rfl, ?_⟩
  intro req d b a
  by_cases hfp : (PrometheusMiddleware.init f p)._is_path_filtered
      (PrometheusMiddleware.get_path_template req).2 = true
  · have hfe : (PrometheusMiddleware.init f "")._is_path_filtered
        (PrometheusMiddleware.get_path_template req).2 = true := hfp
    rw [dispatch_filtered _ req d b a hfp, dispatch_filtered _ req d b a hfe]
  · have hfp2 : (PrometheusMiddleware.init f p)._is_path_filtered
        (PrometheusMiddleware.get_path_template req).2 = false :=
      Bool.not_eq_true _ ▸ hfp
    have hfe2 : (PrometheusMiddleware.init f "")._is_path_filtered
        (PrometheusMiddleware.get_path_template req).2 = false := hfp2
    rcases d with e | r
    · rw [dispatch_error _ req e b a hfp2, dispatch_error _ req e b a hfe2]
      simp [Event.labels]
    · rw [dispatch_ok _ req r b a hfp2, dispatch_ok _ req r b a hfe2]
      simp [Event.labels]

/-- C7: for a single non-filtered request the trace of `dispatch` is totally
ordered: the in-flight gauge increment precedes the downstream invocation,
which precedes the in-flight gauge decrement. -/
theorem C7_gauge_downstream_ordering (mw : PrometheusMiddleware)
    (req : Request) (d : Except Exn Response) (b a : Int)
    (h : mw._is_path_filtered (PrometheusMiddleware.get_path_template req).2 = false) :
    List.findIdx Event.is_gauge_inc (mw.dispatch req d b a).1 <
      List.findIdx Event.is_call_next (mw.dispatch req d b a).1 ∧
    List.findIdx Event.is_call_next (mw.dispatch req d b a).1 <
      List.findIdx Event.is_gauge_dec (mw.dispatch req d b a).1 := by
  rcases d with e | r
  · rw [dispatch_error mw req e b a h]
    constructor <;>
      simp [List.findIdx_cons, Event.is_gauge_inc, Event.is_gauge_dec,
        Event.is_call_next]
  · rw [dispatch_ok mw req r b a h]
    constructor <;>
      simp [List.findIdx_cons, Event.is_gauge_inc, Event.is_gauge_dec,
        Event.is_call_next]

/-- Witness for C7: the default middleware on a matched request whose
handler raises. -/
theorem C7_witness :
    mwDefault._is_path_filtered
      (PrometheusMiddleware.get_path_template reqMatched).2 = false ∧
    (List.findIdx Event.is_gauge_inc
        (mwDefault.dispatch reqMatched (Except.error sampleExn) 3 7).1 <
      List.findIdx Event.is_call_next
        (mwDefault.dispatch reqMatched (Except.error sampleExn) 3 7).1 ∧
    List.findIdx Event.is_call_next
        (mwDefault.dispatch reqMatched (Except.error sampleExn) 3 7).1 <
      List.findIdx Event.is_gauge_dec
        (mwDefault.dispatch reqMatched (Except.error sampleExn) 3 7).1) :=
  ⟨by decide,
   C7_gauge_downstream_ordering mwDefault reqMatched (Except.error sampleExn)
     3 7 (by decide)⟩

/-- C8: with `filter_unhandled_paths=false`, a request matched by no route
resolves its template to the literal raw request path and is recorded
normally under that label: the total-requests counter and the in-flight
gauge operations all carry `(method, raw path)` labels, and the downstream
outcome is returned as usual. -/
theorem C8_unmatched_uses_raw_path (mw : PrometheusMiddleware)
    (req : Request) (d : Except Exn Response) (b a : Int)
    (hf : mw.filter_unhandled_paths = false)
    (hm : (PrometheusMiddleware.get_path_template req).2 = false) :
    (PrometheusMiddleware.get_path_template req).1 = req.url_path ∧
    count_occ (Event.counter_inc mw.requests.name
        (base_labels req.method req.url_path))
      (mw.dispatch req d b a).1 = 1 ∧
    count_occ (Event.gauge_inc mw.requests_in_progress.name
        (base_labels req.method req.url_path))
      (mw.dispatch req d b a).1 = 1 ∧
    count_occ (Event.gauge_dec mw.requests_in_progress.name
        (base_labels req.method req.url_path))
      (mw.dispatch req d b a).1 = 1 ∧
    (mw.dispatch req d b a).2 = d := by
  have hraw : (PrometheusMiddleware.get_path_template req).1 = req.url_path := by
    unfold PrometheusMiddleware.get_path_template at hm ⊢
    rw [find_template_eq_find req.app_routes req.scope req.url_path] at hm ⊢
    rcases hfind : req.app_routes.find?
        (fun route => decide ((route.matches_ req.scope).1 = Match.FULL)) with
      _ | route
    · simp [hfind]
    · rw [hfind] at hm
      simp at hm
  have h : mw._is_path_filtered (PrometheusMiddleware.get_path_template req).2
      = false := by
    simp [PrometheusMiddleware._is_path_filtered, hf]
  refine ⟨hraw, ?_⟩
  rcases d with e | r
  · rw [dispatch_error mw req e b a h, hraw]
    refine ⟨?_, ?_, ?_, rfl⟩ <;>
      simp [count_occ, self_ne_append_singleton]
  · rw [dispatch_ok mw req r b a h, hraw]
    refine ⟨?_, ?_, ?_, rfl⟩ <;>
      simp [count_occ, self_ne_append_singleton]

/-- Witness for C8: the default middleware on an unmatched request. -/
theorem C8_witness :
    mwDefault.filter_unhandled_paths = false ∧
    (PrometheusMiddleware.get_path_template reqUnmatched).2 = false ∧
    ((PrometheusMiddleware.get_path_template reqUnmatched).1 =
      reqUnmatched.url_path ∧
    count_occ (Event.counter_inc mwDefault.requests.name
        (base_labels reqUnmatched.method reqUnmatched.url_path))
      (mwDefault.dispatch reqUnmatched (Except.ok okResponse) 3 7).1 = 1 ∧
    count_occ (Event.gauge_inc mwDefault.requests_in_progress.name
        (base_labels reqUnmatched.method reqUnmatched.url_path))
      (mwDefault.dispatch reqUnmatched (Except.ok okResponse) 3 7).1 = 1 ∧
    count_occ (Event.gauge_dec mwDefault.requests_in_progress.name
        (base_labels reqUnmatched.method reqUnmatched.url_path))
      (mwDefault.dispatch reqUnmatched (Except.ok okResponse) 3 7).1 = 1 ∧
    (mwDefault.dispatch reqUnmatched (Except.ok okResponse) 3 7).2 =
      Except.ok okResponse) :=
  ⟨by decide, by decide,
   C8_unmatched_uses_raw_path mwDefault reqUnmatched (Except.ok okResponse)
     3 7 (by decide) (by decide)⟩

/-- C9: `dispatch` returns the downstream handler's outcome unchanged (same
response value or same re-raised exception) and its trace consists solely of
registry metric operations and the downstream invocation — no other effect
and no new error kind. -/
theorem C9_frame_conditions (mw : PrometheusMiddleware) (req : Request)
    (d : Except Exn Response) (b a : Int) :
    (mw.dispatch req d b a).2 = d ∧
    List.all (mw.dispatch req d b a).1
      (fun ev => ev.is_metric_op || ev.is_call_next) = true := by
  by_cases h : mw._is_path_filtered
      (PrometheusMiddleware.get_path_template req).2 = true
  · rw [dispatch_filtered mw req d b a h]
    exact ⟨rfl, rfl⟩
  · have h2 : mw._is_path_filtered
        (PrometheusMiddleware.get_path_template req).2 = false :=
      Bool.not_eq_true _ ▸ h
    rcases d with e | r
    · rw [dispatch_error mw req e b a h2]
      exact ⟨rfl, rfl⟩
    · rw [dispatch_ok mw req r b a h2]
      exact ⟨rfl, rfl⟩

/-- C10: when a request is filtered out (filtering on, no route matched) and
the downstream handler raises, the exception propagates unchanged and the
trace holds no metric operation at all: the registry is left untouched. -/
theorem C10_filtered_error_no_metrics (mw : PrometheusMiddleware)
    (req : Request) (e : Exn) (b a : Int) (reg : Registry)
    (hf : mw.filter_unhandled_paths = true)
    (hm : (PrometheusMiddleware.get_path_template req).2 = false) :
    mw.dispatch req (Except.error e) b a = ([Event.call_next], Except.error e) ∧
    count_events (mw.dispatch req (Except.error e) b a).1 Event.is_metric_op = 0 ∧
    apply_trace reg (mw.dispatch req (Except.error e) b a).1 = reg := by
  have h : mw._is_path_filtered (PrometheusMiddleware.get_path_template req).2
      = true := by
    simp [PrometheusMiddleware._is_path_filtered, hf, hm]
  rw [dispatch_filtered mw req (Except.error e) b a h]
  exact ⟨rfl, rfl, rfl⟩

/-- Witness for C10: the filtering middleware on an unmatched request whose
handler raises `ValueError`. -/
theorem C10_witness :
    mwFiltering.filter_unhandled_paths = true ∧
    (PrometheusMiddleware.get_path_template reqUnmatched).2 = false ∧
    (mwFiltering.dispatch reqUnmatched (Except.error sampleExn) 3 7 =
      ([Event.call_next], Except.error sampleExn) ∧
    count_events (mwFiltering.dispatch reqUnmatched (Except.error sampleExn) 3 7).1
      Event.is_metric_op = 0 ∧
    apply_trace emptyRegistry
      (mwFiltering.dispatch reqUnmatched (Except.error sampleExn) 3 7).1 =
      emptyRegistry) :=
  ⟨by decide, by decide,
   C10_filtered_error_no_metrics mwFiltering reqUnmatched sampleExn 3 7
     emptyRegistry (by decide) (by decide)⟩

end StarlettePrometheus
